import Mathlib

/-!
Shallow embedding of the quick-note AI summarizer.

Source files embedded here:
* `supabase/functions/summarize-notes/index.ts` — the batch summarization
  edge function (`serve` handler).
* `supabase/functions/summarize-note/index.ts` (the unnamed source file) —
  the single-note summarization edge function.
* `src/hooks/useNotes.tsx` — the `useNotes` hook: the note collection
  manager with `fetchNotes`, `createNote`, `updateNote`, `deleteNote`,
  `summarizeNote`, `summarizeAllNotes`.

Network effects are modelled by passing the outcome of each external call
as an explicit argument, and by returning the list of gateway calls the
operation issues, so that "performs zero gateway calls" is a statement
about the returned call list.
-/

/-- One item of the batch request body `{ notes: [{ title, content }, ...] }`. -/
structure NoteItem where
  title : String
  content : String
deriving DecidableEq, Repr

/-- The observable outcome of one `fetch` to the completion endpoint inside
the batch loop of `summarize-notes/index.ts`:
* `ok s` — `response.ok` holds and `data.choices[0].message.content` is `s`;
* `httpError` — the response arrived with `response.ok` false
  (non-success HTTP status);
* `thrown msg` — an exception escaped this iteration: the `fetch` promise
  rejected (network failure / timeout), or `response.ok` held but
  `response.json()` / `data.choices[0].message.content` threw on a
  malformed body. Such an exception propagates to the outer `catch` of
  the handler. -/
inductive ItemOutcome where
  | ok (summary : String)
  | httpError
  | thrown (msg : String)
deriving DecidableEq, Repr

/-- The HTTP response of the batch handler: `success` is the 200 response
`{ summary }`, `failure` is the 500 response `{ error }` built in the
outer `catch`. -/
inductive BatchResult where
  | success (summary : String)
  | failure (error : String)
deriving DecidableEq, Repr

/-- HTTP status of a batch handler response (the success `Response` is built
with the default status). -/
def BatchResult.status : BatchResult → Nat
  | .success _ => 200
  | .failure _ => 500

/-- A pushed line `summaries.push(`• ${note.title}: ${s}`)`. -/
def bullet (title s : String) : String := "• " ++ title ++ ": " ++ s

/-- The `for (const note of notes)` loop of `summarize-notes/index.ts`,
accumulating the `summaries` array: each iteration pushes
`• {title}: {summary}` when the response is ok, pushes
`• {title}: Unable to summarize this note.` when the response has a
non-success status, and an exception thrown inside an iteration aborts the
loop (it propagates to the outer `catch`). -/
def runBatch : List String → List (NoteItem × ItemOutcome) → Except String (List String)
  | summaries, [] => .ok summaries
  | summaries, (note, outcome) :: rest =>
    match outcome with
    | .ok s => runBatch (summaries ++ [bullet note.title s]) rest
    | .httpError => runBatch (summaries ++ [bullet note.title "Unable to summarize this note."]) rest
    | .thrown msg => .error msg

/-- The `serve` handler of `summarize-notes/index.ts` on a POST request
whose body parsed to `{ notes }`, with `apiKey` the value of
`Deno.env.get("NVIDIA_API_KEY")` (`none` = unset; the source guard
`if (!nvidiApiKey) throw ...` also fires on the empty string). A thrown
error — missing key, or an exception escaping a loop iteration — reaches
the outer `catch` and becomes the 500 `{ error }` response; otherwise the
handler joins the summaries with blank lines and returns 200 `{ summary }`. -/
def summarizeNotesHandler (apiKey : Option String)
    (items : List (NoteItem × ItemOutcome)) : BatchResult :=
  if apiKey.getD "" = "" then .failure "NVIDIA API key not configured"
  else
    match runBatch [] items with
    | .ok summaries => .success (String.intercalate "\n\n" summaries)
    | .error msg => .failure msg

/-- Number of `fetch` calls the batch loop issues to the completion
endpoint: each iteration issues exactly one fetch, and an iteration whose
outcome throws is the last one attempted. -/
def batchLoopFetchCount : List (NoteItem × ItemOutcome) → Nat
  | [] => 0
  | (_, o) :: rest =>
    match o with
    | .thrown _ => 1
    | _ => 1 + batchLoopFetchCount rest

/-- Number of `fetch` calls the whole batch handler issues: none when the
key guard throws before the loop, the per-iteration count otherwise. -/
def batchFetchCount (apiKey : Option String)
    (items : List (NoteItem × ItemOutcome)) : Nat :=
  if apiKey.getD "" = "" then 0 else batchLoopFetchCount items

/-- The line the batch loop produces for one item, provided its iteration
does not throw: the model summary on success, the fixed fallback on a
non-success HTTP status. -/
def itemLine (p : NoteItem × ItemOutcome) : String :=
  match p.2 with
  | .ok s => bullet p.1.title s
  | _ => bullet p.1.title "Unable to summarize this note."

/-- The `Note` interface of `useNotes.tsx`. -/
structure Note where
  id : String
  title : String
  content : String
  summary : Option String
  file_name : Option String
  created_at : String
  updated_at : String
  user_id : String
deriving DecidableEq, Repr

/-- The state the `useNotes` hook holds: the `notes` array and the
`loading` flag. -/
structure NotesState where
  notes : List Note
  loading : Bool
deriving DecidableEq, Repr

/-- One request the hook issues to an external gateway: a supabase table
operation or a supabase edge-function invocation. -/
inductive GatewayCall where
  | storeSelect
  | storeInsert (title content : String) (fileName : Option String) (userId : String)
  | storeUpdate (id title content : String)
  | storeUpdateSummary (id summary : String)
  | storeDelete (id : String)
  | fnSummarizeNote (content : String)
  | fnSummarizeNotes (items : List (String × String))
deriving DecidableEq, Repr

/-- `fetchNotes` of `useNotes.tsx`. `user` is the current auth user id
(`none` = no session), `listResult` the outcome of the `select` call (the
`data || []` collapse in the source and its thrown-exception path are both
covered by the `Except`). Returns the new state and the gateway calls made.
With no user the function returns before the `try`/`finally`, so `loading`
is untouched; otherwise `finally` clears `loading` on success and failure
alike. -/
def fetchNotes (user : Option String) (st : NotesState)
    (listResult : Except String (List Note)) : NotesState × List GatewayCall :=
  match user with
  | none => (st, [])
  | some _ =>
    match listResult with
    | .error _ => ({ st with loading := false }, [.storeSelect])
    | .ok data => ({ notes := data, loading := false }, [.storeSelect])

/-- `createNote` of `useNotes.tsx`. `insertResult` is the outcome of the
`insert` call (`error` covers both the returned error object and a thrown
exception — the source returns `null` on either). On success the returned
record is prepended to `notes`. Returns (result, new state, calls made). -/
def createNote (user : Option String) (st : NotesState)
    (title content : String) (fileName : Option String)
    (insertResult : Except String Note) :
    Option Note × NotesState × List GatewayCall :=
  match user with
  | none => (none, st, [])
  | some uid =>
    match insertResult with
    | .error _ => (none, st, [.storeInsert title content fileName uid])
    | .ok data =>
      (some data, { st with notes := data :: st.notes },
       [.storeInsert title content fileName uid])

/-- `updateNote` of `useNotes.tsx`. On success the entry whose `id`
matches is replaced in place (`notes.map(note => note.id === id ? data :
note)`); on failure the state is unchanged and `null` is returned. -/
def updateNote (user : Option String) (st : NotesState)
    (id title content : String) (updateResult : Except String Note) :
    Option Note × NotesState × List GatewayCall :=
  match user with
  | none => (none, st, [])
  | some _ =>
    match updateResult with
    | .error _ => (none, st, [.storeUpdate id title content])
    | .ok data =>
      (some data,
       { st with notes := st.notes.map fun note => if note.id == id then data else note },
       [.storeUpdate id title content])

/-- `deleteNote` of `useNotes.tsx`. On success the entries whose `id`
matches are filtered out (`notes.filter(note => note.id !== id)`); on
failure the state is unchanged and `false` is returned. -/
def deleteNote (user : Option String) (st : NotesState) (id : String)
    (deleteResult : Except String Unit) :
    Bool × NotesState × List GatewayCall :=
  match user with
  | none => (false, st, [])
  | some _ =>
    match deleteResult with
    | .error _ => (false, st, [.storeDelete id])
    | .ok _ =>
      (true, { st with notes := st.notes.filter fun note => note.id != id },
       [.storeDelete id])

/-- `summarizeNote` of `useNotes.tsx`. The source first looks the note up
(`notes.find(n => n.id === noteId)`) and returns `null` if it is absent or
there is no user, with no gateway contact. Otherwise it invokes the
`summarize-note` edge function with the content of the note (`invokeResult` is
its outcome, the summary string on success); on invoke failure it returns
`null`. On invoke success it issues the store `update` persisting the
summary (`updateResult` its outcome); if that fails it returns `null` with
the state unchanged, and only if it succeeds does it map the returned
record over the collection and return the summary text. -/
def summarizeNote (user : Option String) (st : NotesState) (noteId : String)
    (invokeResult : Except String String) (updateResult : Except String Note) :
    Option String × NotesState × List GatewayCall :=
  match st.notes.find? (fun n => n.id == noteId), user with
  | none, _ => (none, st, [])
  | some _, none => (none, st, [])
  | some note, some _ =>
    match invokeResult with
    | .error _ => (none, st, [.fnSummarizeNote note.content])
    | .ok summary =>
      match updateResult with
      | .error _ =>
        (none, st, [.fnSummarizeNote note.content, .storeUpdateSummary noteId summary])
      | .ok updatedNote =>
        (some summary,
         { st with notes := st.notes.map fun n => if n.id == noteId then updatedNote else n },
         [.fnSummarizeNote note.content, .storeUpdateSummary noteId summary])

/-- `summarizeAllNotes` of `useNotes.tsx`. Returns `null` with no gateway
contact when there is no user or `notes.length === 0`; otherwise invokes
the `summarize-notes` edge function with the `(title, content)` projection
of the whole collection and returns `data.summary` on success, `null` on
failure, never changing the state. -/
def summarizeAllNotes (user : Option String) (st : NotesState)
    (invokeResult : Except String String) :
    Option String × NotesState × List GatewayCall :=
  match user with
  | none => (none, st, [])
  | some _ =>
    if st.notes.length = 0 then (none, st, [])
    else
      let items := st.notes.map fun note => (note.title, note.content)
      match invokeResult with
      | .error _ => (none, st, [.fnSummarizeNotes items])
      | .ok s => (some s, st, [.fnSummarizeNotes items])

/-- One chat message of a completion request body. -/
structure ChatMessage where
  role : String
  content : String
deriving DecidableEq, Repr

/-- The JSON body both edge functions POST to the completion endpoint. -/
structure ChatRequest where
  model : String
  messages : List ChatMessage
  temperature : ℚ
  top_p : ℚ
  max_tokens : Nat
deriving DecidableEq, Repr

/-- The request body built by `summarize-note/index.ts` (single-note mode)
for a given note content. -/
def summarizeNoteRequest (content : String) : ChatRequest where
  model := "nvidia/llama-3.1-nemotron-70b-instruct"
  messages :=
    [⟨"system", "You are a helpful assistant that creates clear, concise summaries. Provide a summary in plain text format with bullet points for key information. Use simple language and avoid any formatting like bold, italics, or markdown. Focus on capturing the main points in 2-3 sentences followed by bullet points for details."⟩,
     ⟨"user", "Please summarize the following text in 1-2 sentences (not bullet points):\n\n" ++ content⟩]
  temperature := 0.2
  top_p := 0.7
  max_tokens := 200

/-- The request body built by `summarize-notes/index.ts` (batch mode) for
one item of the loop. -/
def summarizeNotesItemRequest (note : NoteItem) : ChatRequest where
  model := "nvidia/llama-3.1-nemotron-70b-instruct"
  messages :=
    [⟨"system", "You are a helpful assistant that creates very brief summaries. Provide a concise 1-2 sentence summary in plain text without any formatting or special characters."⟩,
     ⟨"user", "Please summarize the following text in 1-2 sentences (not bullet points): \"" ++ note.title ++ "\":\n\n" ++ note.content⟩]
  temperature := 0.2
  top_p := 0.7
  max_tokens := 100

/-- Whether a loop iteration with this outcome throws (aborting the batch). -/
def ItemOutcome.isThrown : ItemOutcome → Bool
  | .thrown _ => true
  | _ => false

lemma runBatch_ok_of_no_thrown (items : List (NoteItem × ItemOutcome))
    (acc : List String)
    (h : ∀ p ∈ items, p.2.isThrown = false) :
    runBatch acc items = .ok (acc ++ items.map itemLine) := by
  induction items generalizing acc with
  | nil => simp [runBatch]
  | cons p rest ih =>
    obtain ⟨note, o⟩ := p
    have hrest : ∀ q ∈ rest, q.2.isThrown = false :=
      fun q hq => h q (List.mem_cons_of_mem _ hq)
    cases o with
    | ok s =>
      simp [runBatch, ih _ hrest, itemLine, List.append_assoc]
    | httpError =>
      simp [runBatch, ih _ hrest, itemLine, List.append_assoc]
    | thrown msg =>
      have := h (note, .thrown msg) (List.mem_cons_self _ _)
      simp [ItemOutcome.isThrown] at this

lemma runBatch_append (pre rest : List (NoteItem × ItemOutcome))
    (acc : List String) (h : ∀ p ∈ pre, p.2.isThrown = false) :
    runBatch acc (pre ++ rest) = runBatch (acc ++ pre.map itemLine) rest := by
  induction pre generalizing acc with
  | nil => simp [runBatch]
  | cons p pre ih =>
    obtain ⟨note, o⟩ := p
    have hpre : ∀ q ∈ pre, q.2.isThrown = false :=
      fun q hq => h q (List.mem_cons_of_mem _ hq)
    cases o with
    | ok s =>
      simp [runBatch, ih _ hpre, itemLine, List.append_assoc]
    | httpError =>
      simp [runBatch, ih _ hpre, itemLine, List.append_assoc]
    | thrown msg =>
      have := h (note, .thrown msg) (List.mem_cons_self _ _)
      simp [ItemOutcome.isThrown] at this

lemma runBatch_ok_inv (items : List (NoteItem × ItemOutcome))
    (acc lines : List String) (h : runBatch acc items = .ok lines) :
    lines = acc ++ items.map itemLine := by
  induction items generalizing acc with
  | nil =>
    simp [runBatch] at h
    simp [h]
  | cons p rest ih =>
    obtain ⟨note, o⟩ := p
    cases o with
    | ok s =>
      have := ih _ (by simpa [runBatch] using h)
      simp [this, itemLine, List.append_assoc]
    | httpError =>
      have := ih _ (by simpa [runBatch] using h)
      simp [this, itemLine, List.append_assoc]
    | thrown msg =>
      simp [runBatch] at h

/-- C1 counterexample: with the API key configured and a single-item batch
whose request suffers a malformed response (an exception thrown while
reading the body), the handler returns the 500 error response — the line
for the item is not replaced by the fallback string and the batch does not produce
one line per input item, contrary to the claim that malformed responses
and timeouts are isolated per item. -/
theorem c1_counterexample_malformed_aborts :
    summarizeNotesHandler (some "key")
        [(⟨"A", "content A"⟩, ItemOutcome.thrown "malformed response body")]
      = BatchResult.failure "malformed response body" ∧
    (summarizeNotesHandler (some "key")
        [(⟨"A", "content A"⟩, ItemOutcome.thrown "malformed response body")]).status
      = 500 := by
  constructor <;> rfl

/-- C1 (amended): the batch handler fails outright when the API key is
absent, checked before the loop; when the key is configured and every
per-item request either succeeds or returns a non-success HTTP status
(no iteration throws), the line for each failing item is the fixed fallback
string and the batch runs to completion producing one line per input
item; but when the key is configured and some iteration throws (network
failure during fetch, or a malformed response body), the whole batch
aborts with that error and no summary is produced. -/
theorem c1_batch_isolation_amended :
    (∀ items, summarizeNotesHandler none items
        = BatchResult.failure "NVIDIA API key not configured") ∧
    (∀ key items, key ≠ "" → (∀ p ∈ items, p.2.isThrown = false) →
      summarizeNotesHandler (some key) items
        = BatchResult.success (String.intercalate "\n\n" (items.map itemLine))) ∧
    (∀ items : List (NoteItem × ItemOutcome),
      (items.map itemLine).length = items.length) ∧
    (∀ note : NoteItem, itemLine (note, ItemOutcome.httpError)
        = "• " ++ note.title ++ ": " ++ "Unable to summarize this note.") ∧
    (∀ (note : NoteItem) (s : String), itemLine (note, ItemOutcome.ok s)
        = "• " ++ note.title ++ ": " ++ s) ∧
    (∀ key pre note msg post, key ≠ "" → (∀ p ∈ pre, p.2.isThrown = false) →
      summarizeNotesHandler (some key)
          (pre ++ (note, ItemOutcome.thrown msg) :: post)
        = BatchResult.failure msg) := by
  refine ⟨fun items => rfl, ?_, fun items => by simp, ?_, ?_, ?_⟩
  · intro key items hk h
    unfold summarizeNotesHandler
    rw [if_neg (by simpa using hk), runBatch_ok_of_no_thrown items [] h]
    simp
  · intro note; rfl
  · intro note s; rfl
  · intro key pre note msg post hk h
    unfold summarizeNotesHandler
    rw [if_neg (by simpa using hk), runBatch_append pre _ [] h]
    rfl

/-- C1 witness: concrete instances of the amended claim — a two-item batch
with one non-success status completes with the fallback line for that
item, and a batch containing a throwing item aborts with its error. -/
theorem c1_batch_isolation_amended_witness :
    summarizeNotesHandler (some "key")
        [(⟨"A", "content A"⟩, ItemOutcome.ok "summary A"),
         (⟨"B", "content B"⟩, ItemOutcome.httpError)]
      = BatchResult.success "• A: summary A\n\n• B: Unable to summarize this note." ∧
    summarizeNotesHandler (some "key")
        [(⟨"A", "content A"⟩, ItemOutcome.ok "summary A"),
         (⟨"B", "content B"⟩, ItemOutcome.thrown "fetch rejected")]
      = BatchResult.failure "fetch rejected" := by
  constructor
  · have h := c1_batch_isolation_amended.2.1 "key"
      [(⟨"A", "content A"⟩, ItemOutcome.ok "summary A"),
       (⟨"B", "content B"⟩, ItemOutcome.httpError)]
      (by decide) (by decide)
    simpa using h
  · have h := c1_batch_isolation_amended.2.2.2.2.2 "key"
      [(⟨"A", "content A"⟩, ItemOutcome.ok "summary A")]
      (⟨"B", "content B"⟩) "fetch rejected" [] (by decide) (by decide)
    simpa using h

/-- C2: in `summarizeNote`, when the summarization call succeeds with some
summary text but the subsequent store update persisting it fails, the
operation returns `none` and the collection state is exactly what it was —
the computed summary is neither placed into the collection nor returned. -/
theorem c2_summarize_one_persistence_gate :
    ∀ (user : Option String) (st : NotesState) (noteId s e : String),
      (summarizeNote user st noteId (Except.ok s) (Except.error e)).1 = none ∧
      (summarizeNote user st noteId (Except.ok s) (Except.error e)).2.1 = st := by
  intro user st noteId s e
  unfold summarizeNote
  cases st.notes.find? (fun n => n.id == noteId) <;> cases user <;> simp

/-- C3: whenever the batch handler produces a combined summary text, that
text is exactly the input-order intercalation, by blank lines, of one
bullet line per input item (`itemLine`: the model summary on success, the
fixed fallback on a non-success status). -/
theorem c3_batch_order_preservation :
    ∀ (key : String) (items : List (NoteItem × ItemOutcome)) (text : String),
      summarizeNotesHandler (some key) items = BatchResult.success text →
      text = String.intercalate "\n\n" (items.map itemLine) := by
  intro key items text h
  unfold summarizeNotesHandler at h
  by_cases hk : (Option.getD (some key) "") = ""
  · rw [if_pos hk] at h
    exact absurd h (by simp)
  · rw [if_neg hk] at h
    cases hr : runBatch [] items with
    | ok lines =>
      rw [hr] at h
      injection h with h
      have hl := runBatch_ok_inv items [] lines hr
      simp at hl
      rw [← h, hl]
    | error msg =>
      rw [hr] at h
      exact absurd h (by simp)

/-- C3 witness: for notes `[A, B, C]` where only the request for B fails
(a non-success HTTP status), the combined text has the three lines in
order A, B, C and the line for B is exactly the fallback line. -/
theorem c3_batch_order_preservation_witness :
    summarizeNotesHandler (some "key")
        [(⟨"A", "ca"⟩, ItemOutcome.ok "summary A"),
         (⟨"B", "cb"⟩, ItemOutcome.httpError),
         (⟨"C", "cc"⟩, ItemOutcome.ok "summary C")]
      = BatchResult.success
          "• A: summary A\n\n• B: Unable to summarize this note.\n\n• C: summary C" ∧
    "• A: summary A\n\n• B: Unable to summarize this note.\n\n• C: summary C"
      = String.intercalate "\n\n"
          ([(⟨"A", "ca"⟩, ItemOutcome.ok "summary A"),
            (⟨"B", "cb"⟩, ItemOutcome.httpError),
            (⟨"C", "cc"⟩, ItemOutcome.ok "summary C")].map itemLine) := by
  constructor
  · rfl
  · exact c3_batch_order_preservation "key" _ _ (by rfl)

/-- C4: a failed `create` returns `none` and adds no entry; a failed
`update` returns `none` and mutates no entry; a failed `delete` returns
`false` and removes no entry — on any store failure the state is exactly
what it was before the operation. -/
theorem c4_no_optimistic_leakage :
    (∀ (user : Option String) (st : NotesState) (t c : String)
        (fn : Option String) (e : String),
      (createNote user st t c fn (Except.error e)).1 = none ∧
      (createNote user st t c fn (Except.error e)).2.1 = st) ∧
    (∀ (user : Option String) (st : NotesState) (id t c e : String),
      (updateNote user st id t c (Except.error e)).1 = none ∧
      (updateNote user st id t c (Except.error e)).2.1 = st) ∧
    (∀ (user : Option String) (st : NotesState) (id e : String),
      (deleteNote user st id (Except.error e)).1 = false ∧
      (deleteNote user st id (Except.error e)).2.1 = st) := by
  refine ⟨?_, ?_, ?_⟩
  · intro user st t c fn e
    cases user <;> exact ⟨rfl, rfl⟩
  · intro user st id t c e
    cases user <;> exact ⟨rfl, rfl⟩
  · intro user st id e
    cases user <;> exact ⟨rfl, rfl⟩

/-- C5: every mutation operation invoked with no active user — `create`,
`update`, `delete`, `summarizeOne`, `summarizeAll` — issues zero gateway
calls, leaves the state unchanged and returns an absent/falsy result. -/
theorem c5_no_session_noop :
    ∀ st : NotesState,
      (∀ (t c : String) (fn : Option String) (r : Except String Note),
        createNote none st t c fn r = (none, st, [])) ∧
      (∀ (id t c : String) (r : Except String Note),
        updateNote none st id t c r = (none, st, [])) ∧
      (∀ (id : String) (r : Except String Unit),
        deleteNote none st id r = (false, st, [])) ∧
      (∀ (noteId : String) (ir : Except String String) (ur : Except String Note),
        summarizeNote none st noteId ir ur = (none, st, [])) ∧
      (∀ r : Except String String, summarizeAllNotes none st r = (none, st, [])) := by
  intro st
  refine ⟨fun t c fn r => rfl, fun id t c r => rfl, fun id r => rfl, ?_, fun r => rfl⟩
  intro noteId ir ur
  unfold summarizeNote
  cases st.notes.find? (fun n => n.id == noteId) <;> rfl

/-- C6: a successful `update` leaves the collection the same length and,
position by position, replaces exactly the entries whose `id` matches with
the returned record, leaving every other entry unchanged in place; a
successful `delete` yields a sublist of the original (order of survivors
preserved) whose members are exactly the original entries with a different
`id`; on failure both operations leave the state exactly unchanged. -/
theorem c6_update_in_place_delete_filter :
    ∀ (u : String) (st : NotesState) (id : String),
      (∀ (t c : String) (data : Note),
        (updateNote (some u) st id t c (Except.ok data)).2.1.notes.length
            = st.notes.length ∧
        ∀ i : Nat,
          (updateNote (some u) st id t c (Except.ok data)).2.1.notes[i]?
            = (st.notes[i]?).map fun n => if n.id == id then data else n) ∧
      ((deleteNote (some u) st id (Except.ok ())).2.1.notes.Sublist st.notes ∧
       ∀ n : Note,
         n ∈ (deleteNote (some u) st id (Except.ok ())).2.1.notes
           ↔ n ∈ st.notes ∧ ¬n.id = id) ∧
      (∀ t c e : String,
        (updateNote (some u) st id t c (Except.error e)).2.1 = st) ∧
      (∀ e : String, (deleteNote (some u) st id (Except.error e)).2.1 = st) := by
  intro u st id
  refine ⟨?_, ⟨?_, ?_⟩, fun t c e => rfl, fun e => rfl⟩
  · intro t c data
    constructor
    · simp [updateNote]
    · intro i
      simp [updateNote]
  · exact List.filter_sublist _
  · intro n
    simp [deleteNote, List.mem_filter, bne_iff_ne]

/-- C7: `summarizeAllNotes` is a no-op returning `none` with zero gateway
calls when there is no user or the collection is empty; otherwise it
issues exactly one call — the `summarize-notes` invocation carrying the
`(title, content)` pairs of the whole collection in collection order — returns
the combined text on success and `none` on failure, and in every case
leaves the state (every note, every summary field, the loading flag)
unchanged. -/
theorem c7_summarize_all_frame :
    (∀ (st : NotesState) (r : Except String String),
      summarizeAllNotes none st r = (none, st, [])) ∧
    (∀ (u : String) (st : NotesState) (r : Except String String),
      st.notes = [] → summarizeAllNotes (some u) st r = (none, st, [])) ∧
    (∀ (u : String) (st : NotesState) (s : String), st.notes ≠ [] →
      summarizeAllNotes (some u) st (Except.ok s)
        = (some s, st,
           [GatewayCall.fnSummarizeNotes
             (st.notes.map fun n => (n.title, n.content))])) ∧
    (∀ (u : String) (st : NotesState) (e : String), st.notes ≠ [] →
      summarizeAllNotes (some u) st (Except.error e)
        = (none, st,
           [GatewayCall.fnSummarizeNotes
             (st.notes.map fun n => (n.title, n.content))])) := by
  refine ⟨fun st r => rfl, ?_, ?_, ?_⟩
  · intro u st r h
    cases r <;> simp [summarizeAllNotes, h]
  · intro u st s h
    simp [summarizeAllNotes, List.length_eq_zero, h]
  · intro u st e h
    simp [summarizeAllNotes, List.length_eq_zero, h]

/-- C7 witness: on a one-note collection with a session, `summarizeAllNotes`
returns the combined text, leaves the state unchanged and issues exactly
the one batch invocation carrying the (title, content) pair of that note. -/
theorem c7_summarize_all_frame_witness :
    summarizeAllNotes (some "u")
        ⟨[⟨"a", "A", "ca", none, none, "t1", "t2", "u"⟩], false⟩
        (Except.ok "S")
      = (some "S",
         ⟨[⟨"a", "A", "ca", none, none, "t1", "t2", "u"⟩], false⟩,
         [GatewayCall.fnSummarizeNotes [("A", "ca")]]) := by
  have h := c7_summarize_all_frame.2.2.1 "u"
      ⟨[⟨"a", "A", "ca", none, none, "t1", "t2", "u"⟩], false⟩ "S" (by decide)
  rw [h]
  rfl

/-- C8: the generation parameters of the completion request are the same
fixed constants for every input in each mode — temperature 0.2 and
nucleus-sampling threshold 0.7 in both — and the maximum output length of
single-note mode strictly exceeds the per-item maximum used inside
batch mode. -/
theorem c8_generation_params :
    ∀ (content : String) (note : NoteItem),
      (summarizeNoteRequest content).temperature = 0.2 ∧
      (summarizeNotesItemRequest note).temperature = 0.2 ∧
      (summarizeNoteRequest content).top_p = 0.7 ∧
      (summarizeNotesItemRequest note).top_p = 0.7 ∧
      (summarizeNotesItemRequest note).max_tokens
        < (summarizeNoteRequest content).max_tokens := by
  intro content note
  exact ⟨rfl, rfl, rfl, rfl, by show (100 : Nat) < 200; decide⟩

/-- C9: `fetchNotes` with no user returns immediately — state (collection
and loading flag alike) untouched, zero gateway calls — while with a
session both the success and the failure path clear the loading flag. -/
theorem c9_fetch_no_session_keeps_loading :
    (∀ (st : NotesState) (r : Except String (List Note)),
      fetchNotes none st r = (st, [])) ∧
    (∀ (u : String) (st : NotesState) (r : Except String (List Note)),
      (fetchNotes (some u) st r).1.loading = false ∧
      (fetchNotes (some u) st r).2 = [GatewayCall.storeSelect]) := by
  refine ⟨fun st r => rfl, ?_⟩
  intro u st r
  cases r <;> exact ⟨rfl, rfl⟩

/-- C10: with credentials configured, the batch handler on an empty notes
list issues zero fetches to the completion endpoint and returns the 200
success response whose summary is the empty string. -/
theorem c10_empty_batch :
    ∀ key : String, key ≠ "" →
      summarizeNotesHandler (some key) [] = BatchResult.success "" ∧
      batchFetchCount (some key) [] = 0 := by
  intro key hk
  constructor
  · unfold summarizeNotesHandler
    rw [if_neg (by simpa using hk)]
    rfl
  · unfold batchFetchCount
    rw [if_neg (by simpa using hk)]
    rfl

/-- C10 witness: the empty batch with the key set to a concrete value. -/
theorem c10_empty_batch_witness :
    summarizeNotesHandler (some "key") [] = BatchResult.success "" ∧
    batchFetchCount (some "key") [] = 0 :=
  c10_empty_batch "key" (by decide)
